import Mathlib

/-!
# Verification of the microservices-scaffolding token service

Shallow embedding of the two Python sources:
* `src/py_app/index.py` → namespace `PyApp` (rotating secret, token blacklist,
  login / refresh / protected / status routes);
* `src/index.py` → namespace `RootApp` (fixed secret, no blacklist).

The JWT library (PyJWT) is an external collaborator of both files; it is
modelled once in namespace `Jwt`.  Machine time is passed explicitly as a
`Nat` of milliseconds or seconds where the code reads a clock; the external
world (metadata file, git subprocess) is passed as explicit `Except` inputs.
-/

namespace Jwt

/-- Modelled from the spec: the Token Codec (the PyJWT library, which is not
part of `src/`).  A payload as issued and consumed by this application:
`id` and `username` identity fields plus an optional `exp` claim (seconds).
The application's own `generate_token` never sets `exp`; a token presented
by a client may carry one. -/
structure Payload where
  userId : Nat
  username : String
  exp : Option Nat
deriving DecidableEq, Repr

/-- The two failure kinds `jwt.decode` raises that the routes distinguish:
`jwt.ExpiredSignatureError` and `jwt.InvalidTokenError`. -/
inductive Error where
  | ExpiredSignature
  | InvalidToken
deriving DecidableEq, Repr

/-- Modelled from the spec: a signed token over key type `K`.  The signature
is abstracted as the key the token was signed with: verification against a
key succeeds exactly when the keys coincide, and a tampered token is one
whose `key` field differs from every honestly-used secret. -/
structure Token (K : Type) where
  payload : Payload
  key : K
deriving DecidableEq, Repr

/-- Modelled from the spec: `jwt.encode(payload, secret, algorithm="HS256")`.
Since the application adds no `iat`/`exp` claim of its own, encoding is
deterministic in payload and secret. -/
def encode {K : Type} (payload : Payload) (secret : K) : Token K :=
  ⟨payload, secret⟩

/-- Modelled from the spec: `jwt.decode(token, secret, algorithms=["HS256"])`
with `options={"verify_exp": verifyExp}`.  Signature verification happens
first; only then, and only when `verifyExp` is true, is the `exp` claim
compared with the current time (seconds).  A token whose `exp` is at or
before `now` is expired. -/
def decode {K : Type} [DecidableEq K] (t : Token K) (secret : K)
    (verifyExp : Bool) (now : Nat) : Except Error Payload :=
  if t.key = secret then
    if verifyExp then
      match t.payload.exp with
      | some e => if e ≤ now then Except.error Error.ExpiredSignature else Except.ok t.payload
      | none => Except.ok t.payload
    else Except.ok t.payload
  else Except.error Error.InvalidToken

end Jwt

/-- Outcome of an authentication middleware run: either the wrapped handler
is invoked with `request.user` set to the decoded payload, or an error
response with an HTTP status code and message is returned instead. -/
inductive AuthResult where
  | ok (user : Jwt.Payload)
  | errorResp (status : Nat) (msg : String)
deriving DecidableEq, Repr

/-- `metadata.json` document: the fields `/status` reads. -/
structure Metadata where
  description : String
  version : String
deriving DecidableEq, Repr

/-- The configuration cache (`config_cache` in `src/py_app/index.py`,
`configCache` in `src/index.py`): metadata document, git SHA and the
timestamp (ms) of the last successful load; `0`/`none` before any load. -/
structure ConfigCache where
  metadata : Option Metadata
  sha : Option String
  lastUpdated : Nat
deriving DecidableEq, Repr

/-- `CACHE_DURATION_MS = 5 * 60 * 1000`, identical in both sources. -/
def CACHE_DURATION_MS : Nat := 5 * 60 * 1000

namespace PyApp

/-- Python's `str.split(sep)` with a one-character separator: splits at every
occurrence of `sep` and keeps empty fields, so `"a  b"` gives three fields
and `"Bearer "` gives `["Bearer", ""]`.  Header strings are modelled as
`List Char`. -/
def pySplit (sep : Char) : List Char → List (List Char)
  | [] => [[]]
  | c :: cs =>
    if c = sep then [] :: pySplit sep cs
    else
      match pySplit sep cs with
      | [] => [[c]]
      | f :: rest => (c :: f) :: rest

/-- `extract_auth_token` (src/py_app/index.py:40-42), also inlined in
`src/index.py:66-67`: `auth_header.split(" ")[1] if auth_header else None`.
An absent or empty (falsy) header yields `None`; otherwise the header is
split on spaces and index `[1]` is taken, which raises `IndexError`
(modelled as `Except.error ()`) when the split has fewer than two fields. -/
def extract_auth_token (authHeader : Option (List Char)) :
    Except Unit (Option (List Char)) :=
  match authHeader with
  | none => Except.ok none
  | some h =>
    if h = [] then Except.ok none
    else
      match (pySplit ' ' h).get? 1 with
      | some t => Except.ok (some t)
      | none => Except.error ()

/-- Outcome of the front half of `authenticate_token`
(src/py_app/index.py:80-85): extraction followed by the
`if not token: return 401` check. -/
inductive FrontOutcome where
  | indexError
  | missingToken
  | hasToken (t : List Char)
deriving DecidableEq, Repr

/-- Front half of the `authenticate_token` middleware: extract the bearer
token and fail `MissingToken` when it is falsy (`None` or the empty
string).  An `IndexError` inside `extract_auth_token` propagates: no
`except` covers it. -/
def auth_front (authHeader : Option (List Char)) : FrontOutcome :=
  match extract_auth_token authHeader with
  | Except.error _ => FrontOutcome.indexError
  | Except.ok none => FrontOutcome.missingToken
  | Except.ok (some t) =>
    if t = [] then FrontOutcome.missingToken else FrontOutcome.hasToken t

/-- Secrets are opaque high-entropy hex strings from `os.urandom(64).hex()`;
they are modelled as draws from a freshness counter, so distinct draws are
distinct secrets. -/
def generate_secret_key (ctr : Nat) : Nat × Nat :=
  (ctr, ctr + 1)

/-- A py_app token: signed with a rotating `Nat`-modelled secret. -/
abbrev Token := Jwt.Token Nat

/-- The module-level mutable state of `src/py_app/index.py`:
`current_secret_key`, `token_blacklist`, `current_token`, plus the
freshness counter backing `generate_secret_key`. -/
structure AppState where
  currentSecretKey : Nat
  tokenBlacklist : List Token
  currentToken : Option Token
  secretCtr : Nat
deriving DecidableEq, Repr

/-- State at module load: `current_secret_key = generate_secret_key()` (the
draw at counter 0), empty blacklist, `current_token = None`. -/
def initAppState : AppState :=
  { currentSecretKey := 0, tokenBlacklist := [], currentToken := none, secretCtr := 1 }

/-- `ERROR_MESSAGES` / `RESPONSE_STATUS` constants (src/py_app/index.py:21-29). -/
def MISSING_TOKEN_MSG : String := "Unauthorized: Missing token"

def TOKEN_EXPIRED_MSG : String := "Unauthorized: Token expired"

def TOKEN_REUSED_MSG : String := "Forbidden: Token has already been used"

def INVALID_TOKEN_MSG : String := "Forbidden: Invalid token"

/-- Core of the `authenticate_token` middleware (src/py_app/index.py:80-98),
given the already-extracted raw bearer token (the `auth_front` part having
produced `hasToken`):
1. if the raw token is in `token_blacklist` → 403 `TOKEN_REUSED`;
2. otherwise `jwt.decode(token, current_secret_key, ...)` with expiry
   verified; on success `request.user = decoded` and, when the request path
   is not `"/protected"`, the raw token is added to the blacklist;
3. `ExpiredSignatureError` → 401 `TOKEN_EXPIRED`; `InvalidTokenError` →
   status 401 (`RESPONSE_STATUS["UNAUTHORIZED"]`) with message
   `ERROR_MESSAGES["INVALID_TOKEN"]`. -/
def authenticate_token (t : Token) (path : String) (st : AppState) (now : Nat) :
    AuthResult × AppState :=
  if t ∈ st.tokenBlacklist then
    (AuthResult.errorResp 403 TOKEN_REUSED_MSG, st)
  else
    match Jwt.decode t st.currentSecretKey true now with
    | Except.ok decoded =>
      if path ≠ "/protected" then
        (AuthResult.ok decoded, { st with tokenBlacklist := t :: st.tokenBlacklist })
      else
        (AuthResult.ok decoded, st)
    | Except.error Jwt.Error.ExpiredSignature =>
      (AuthResult.errorResp 401 TOKEN_EXPIRED_MSG, st)
    | Except.error Jwt.Error.InvalidToken =>
      (AuthResult.errorResp 401 INVALID_TOKEN_MSG, st)

/-- `generate_token` (src/py_app/index.py:101-105): rotates
`current_secret_key` to a fresh secret, signs the given payload with the new
secret (no `exp` claim is added — `TOKEN_EXPIRATION_TIME` is never used),
stores the result in `current_token` and returns it. -/
def generate_token (payload : Jwt.Payload) (st : AppState) : Token × AppState :=
  let (newKey, ctr) := generate_secret_key st.secretCtr
  let t := Jwt.encode payload newKey
  (t, { st with currentSecretKey := newKey, currentToken := some t, secretCtr := ctr })

/-- The fixed demonstrative identity `{"id": 1, "username": "exampleuser"}`
constructed by the `/login` route. -/
def loginUser : Jwt.Payload :=
  { userId := 1, username := "exampleuser", exp := none }

/-- `login` (src/py_app/index.py:108-112): always succeeds, issuing a token
for `loginUser` via `generate_token` (which rotates the secret). -/
def login (st : AppState) : Token × AppState :=
  generate_token loginUser st

/-- Outcome of the `/refresh` view: a fresh token, an error response, or —
when `except jwt.InvalidTokenError: pass` falls off the end of the
function — no response at all (Python returns `None`). -/
inductive RefreshResult where
  | token (t : Token)
  | errorResp (status : Nat) (msg : String)
  | noResponse
deriving DecidableEq, Repr

/-- `refresh` (src/py_app/index.py:114-126), given the extracted bearer token
(`none` when extraction produced a falsy token): decodes against the CURRENT
secret with `verify_exp: False`; a falsy `decoded.get("id")` (the identity
field absent or zero) → 400; otherwise a new token for the same
`id`/`username` is issued via `generate_token` (rotating the secret).  A
signature failure reaches `except jwt.InvalidTokenError: pass`, so the view
returns `None`. -/
def refresh (rawToken : Option Token) (st : AppState) (now : Nat) :
    RefreshResult × AppState :=
  match rawToken with
  | none => (RefreshResult.errorResp 401 MISSING_TOKEN_MSG, st)
  | some raw =>
    match Jwt.decode raw st.currentSecretKey false now with
    | Except.ok decoded =>
      if decoded.userId = 0 then
        (RefreshResult.errorResp 400 "Token is still valid, no need for refresh", st)
      else
        let (nt, st2) := generate_token
          { userId := decoded.userId, username := decoded.username, exp := none } st
        (RefreshResult.token nt, st2)
    | Except.error _ => (RefreshResult.noResponse, st)

/-- `load_configuration` (src/py_app/index.py:52-65).  The clock, the
metadata-file read+parse and the `git rev-parse HEAD` subprocess are external
inputs.  A truthy cached `metadata` younger than `CACHE_DURATION_MS` is
returned unchanged; otherwise both external operations run and only after
both succeed is the cache replaced — metadata, sha and timestamp together in
one `config_cache.update` call.  Any failure raises (`Except.error ()`,
Python `Exception("Failed to load configuration")`) with the cache
untouched. -/
def load_configuration (cache : ConfigCache) (now : Nat)
    (fileRead : Except Unit Metadata) (gitSha : Except Unit String) :
    Except Unit ConfigCache × ConfigCache :=
  if cache.metadata.isSome ∧ now - cache.lastUpdated < CACHE_DURATION_MS then
    (Except.ok cache, cache)
  else
    match fileRead, gitSha with
    | Except.ok m, Except.ok s =>
      let c : ConfigCache := { metadata := some m, sha := some s, lastUpdated := now }
      (Except.ok c, c)
    | Except.error _, _ => (Except.error (), cache)
    | _, Except.error _ => (Except.error (), cache)

end PyApp

namespace RootApp

/-- `JWT_SECRET_KEY = 'SECRET_TOKEN'` (src/index.py:11): a fixed string
secret, never rotated. -/
def JWT_SECRET_KEY : String := "SECRET_TOKEN"

/-- A root-app token: signed with a string key. -/
abbrev Token := Jwt.Token String

/-- Core of `authenticate_token` (src/index.py:62-86), given the extracted
bearer token: decode against the fixed `JWT_SECRET_KEY` with expiry
verified; every failure kind — expired, invalid signature, or any other
exception — is surfaced with status 401. -/
def authenticate_token (t : Token) (now : Nat) : AuthResult :=
  match Jwt.decode t JWT_SECRET_KEY true now with
  | Except.ok decoded => AuthResult.ok decoded
  | Except.error Jwt.Error.ExpiredSignature =>
    AuthResult.errorResp 401 "Unauthorized: Token expired"
  | Except.error Jwt.Error.InvalidToken =>
    AuthResult.errorResp 401 "Unauthorized: Invalid token"

/-- `load_configuration` (src/index.py:36-57): same cache discipline as
`PyApp.load_configuration` — the file read and the SHA lookup both precede
the three cache-field assignments, so the entry is only ever replaced as a
whole, and any failure raises `RuntimeError` with the cache untouched. -/
def load_configuration (cache : ConfigCache) (now : Nat)
    (fileRead : Except Unit Metadata) (gitSha : Except Unit String) :
    Except Unit ConfigCache × ConfigCache :=
  if cache.metadata.isSome ∧ now - cache.lastUpdated < CACHE_DURATION_MS then
    (Except.ok cache, cache)
  else
    match fileRead, gitSha with
    | Except.ok m, Except.ok s =>
      let c : ConfigCache := { metadata := some m, sha := some s, lastUpdated := now }
      (Except.ok c, c)
    | Except.error _, _ => (Except.error (), cache)
    | _, Except.error _ => (Except.error (), cache)

end RootApp

/-! ## Claim theorems -/

/-- Claim C2 (code bug): the spec says tokens carry a 1-hour expiration
horizon, but `generate_token` never uses `TOKEN_EXPIRATION_TIME`: the token
issued for the login identity carries no `exp` claim, and decoding it with
expiry verification enabled succeeds at EVERY later time `now` — it can
never fail with `Expired`. -/
theorem c2_generated_tokens_never_expire (st : PyApp.AppState) (now : Nat) :
    (PyApp.generate_token PyApp.loginUser st).1.payload.exp = none
    ∧ Jwt.decode (PyApp.generate_token PyApp.loginUser st).1
        (PyApp.generate_token PyApp.loginUser st).2.currentSecretKey true now
      = Except.ok PyApp.loginUser := by
  constructor
  · rfl
  · simp [PyApp.generate_token, PyApp.generate_secret_key, Jwt.decode, Jwt.encode,
      PyApp.loginUser]

/-- Claim C3 (confirmed): calling `login` twice rotates the secret twice;
decoding the first token against the secret current after the second login
fails with `SignatureInvalid` (`jwt.InvalidTokenError`). -/
theorem c3_second_login_invalidates_first_token (st : PyApp.AppState) (now : Nat) :
    Jwt.decode (PyApp.login st).1
        (PyApp.login (PyApp.login st).2).2.currentSecretKey true now
      = Except.error Jwt.Error.InvalidToken := by
  simp [PyApp.login, PyApp.generate_token, PyApp.generate_secret_key, Jwt.decode,
    Jwt.encode]

/-- Claim C5 (code bug): a refresh request presenting a token whose signature
does not verify against the current secret hits
`except jwt.InvalidTokenError: pass`, so the view returns `None` — no
response at all — instead of the 403 invalid-token error response the spec
requires. -/
theorem c5_invalid_refresh_returns_no_response
    (st : PyApp.AppState) (t : PyApp.Token) (now : Nat)
    (hsig : t.key ≠ st.currentSecretKey) :
    PyApp.refresh (some t) st now = (PyApp.RefreshResult.noResponse, st) := by
  simp [PyApp.refresh, Jwt.decode, hsig]

/-- Concrete instance of `c5_invalid_refresh_returns_no_response`: a token
signed under key 99 presented while the current secret is 0. -/
theorem c5_witness :
    PyApp.refresh (some ⟨PyApp.loginUser, 99⟩) PyApp.initAppState 0
      = (PyApp.RefreshResult.noResponse, PyApp.initAppState) :=
  c5_invalid_refresh_returns_no_response PyApp.initAppState ⟨PyApp.loginUser, 99⟩ 0
    (by decide)

/-- Claim C7 (confirmed): a raw token present in the blacklist is rejected
with 403 `AlreadyUsed` before `jwt.decode` is ever consulted — for every
path, time, and state, so in particular for ledgered tokens that are also
expired or tampered. -/
theorem c7_ledgered_token_always_already_used
    (t : PyApp.Token) (p : String) (st : PyApp.AppState) (now : Nat)
    (hmem : t ∈ st.tokenBlacklist) :
    PyApp.authenticate_token t p st now
      = (AuthResult.errorResp 403 PyApp.TOKEN_REUSED_MSG, st) := by
  simp [PyApp.authenticate_token, hmem]

/-- Concrete instance of `c7_ledgered_token_always_already_used`: a
blacklisted token that is both expired (`exp = 0 ≤ now = 5`) and tampered
(signed under 99 while the current secret is 0) still observes 403
`AlreadyUsed`, not `Expired` or `Invalid`. -/
theorem c7_witness :
    PyApp.authenticate_token ⟨⟨1, "u", some 0⟩, 99⟩ "/status"
        ⟨0, [⟨⟨1, "u", some 0⟩, 99⟩], none, 1⟩ 5
      = (AuthResult.errorResp 403 PyApp.TOKEN_REUSED_MSG,
         ⟨0, [⟨⟨1, "u", some 0⟩, 99⟩], none, 1⟩) :=
  c7_ledgered_token_always_already_used ⟨⟨1, "u", some 0⟩, 99⟩ "/status"
    ⟨0, [⟨⟨1, "u", some 0⟩, 99⟩], none, 1⟩ 5 (by decide)

/-- Claim C1 (counterexample): run the spec's own scenario against the code.
From the initial state, `POST /login` issues T1; a first `GET /protected`
with T1 succeeds; the claim says the second `GET /protected` with T1 fails
403 `AlreadyUsed`, but it succeeds again — the guard only ledgers tokens on
paths OTHER than `"/protected"`, so `/protected` is the exempt route. -/
theorem c1_counterexample_second_protected_succeeds :
    (PyApp.authenticate_token (PyApp.login PyApp.initAppState).1 "/protected"
        (PyApp.authenticate_token (PyApp.login PyApp.initAppState).1 "/protected"
          (PyApp.login PyApp.initAppState).2 0).2 0).1
      = AuthResult.ok PyApp.loginUser
    ∧ (PyApp.authenticate_token (PyApp.login PyApp.initAppState).1 "/protected"
        (PyApp.authenticate_token (PyApp.login PyApp.initAppState).1 "/protected"
          (PyApp.login PyApp.initAppState).2 0).2 0).1
      ≠ AuthResult.errorResp 403 PyApp.TOKEN_REUSED_MSG := by
  refine ⟨rfl, ?_⟩
  decide

/-- Claim C1 (amended): `/protected` is the exempt route — a `/protected`
request never changes the state, so the same token may be presented to it
repeatedly with identical outcome; any OTHER guarded route (e.g. `/status`)
consumes the token on success, after which every presentation, to any path
at any time, fails 403 `AlreadyUsed`. -/
theorem c1_amended_protected_is_exempt
    (st : PyApp.AppState) (t : PyApp.Token) (p p2 : String)
    (now now3 : Nat) (u : Jwt.Payload)
    (hp : p ≠ "/protected")
    (hok : (PyApp.authenticate_token t p st now).1 = AuthResult.ok u) :
    (∀ n, (PyApp.authenticate_token t "/protected" st n).2 = st)
    ∧ (∀ n, PyApp.authenticate_token t "/protected"
          (PyApp.authenticate_token t "/protected" st n).2 n
        = PyApp.authenticate_token t "/protected" st n)
    ∧ (PyApp.authenticate_token t p2
        (PyApp.authenticate_token t p st now).2 now3).1
      = AuthResult.errorResp 403 PyApp.TOKEN_REUSED_MSG := by
  have hpres : ∀ n, (PyApp.authenticate_token t "/protected" st n).2 = st := by
    intro n
    unfold PyApp.authenticate_token
    split
    · rfl
    · split
      · rw [if_neg (fun hne => hne rfl)]
      · rfl
      · rfl
  refine ⟨hpres, fun n => by rw [hpres n], ?_⟩
  unfold PyApp.authenticate_token at hok
  by_cases hmem : t ∈ st.tokenBlacklist
  · rw [if_pos hmem] at hok
    exact absurd hok (by simp)
  · rw [if_neg hmem] at hok
    rcases hdec : Jwt.decode t st.currentSecretKey true now with err | d
    · rw [hdec] at hok
      cases err <;> simp at hok
    · have hst : (PyApp.authenticate_token t p st now).2
          = { st with tokenBlacklist := t :: st.tokenBlacklist } := by
        unfold PyApp.authenticate_token
        rw [if_neg hmem, hdec]
        simp [hp]
      rw [hst]
      have hmem2 : t ∈ ({ st with tokenBlacklist := t :: st.tokenBlacklist }
          : PyApp.AppState).tokenBlacklist := List.mem_cons_self t _
      simp [PyApp.authenticate_token, hmem2]

/-- Concrete instance of `c1_amended_protected_is_exempt`: after login issues
T1 (secret 1), a `/protected` request with T1 leaves the state unchanged,
while a `/status` request with T1 consumes it and a later `/protected`
request with T1 then fails 403 `AlreadyUsed`. -/
theorem c1_amended_witness :
    (PyApp.authenticate_token ⟨PyApp.loginUser, 1⟩ "/protected"
        ⟨1, [], some ⟨PyApp.loginUser, 1⟩, 2⟩ 0).2
      = ⟨1, [], some ⟨PyApp.loginUser, 1⟩, 2⟩
    ∧ (PyApp.authenticate_token ⟨PyApp.loginUser, 1⟩ "/protected"
        (PyApp.authenticate_token ⟨PyApp.loginUser, 1⟩ "/status"
          ⟨1, [], some ⟨PyApp.loginUser, 1⟩, 2⟩ 0).2 7).1
      = AuthResult.errorResp 403 PyApp.TOKEN_REUSED_MSG :=
  ⟨(c1_amended_protected_is_exempt ⟨1, [], some ⟨PyApp.loginUser, 1⟩, 2⟩
      ⟨PyApp.loginUser, 1⟩ "/status" "/protected" 0 7 PyApp.loginUser
      (by decide) (by decide)).1 0,
   (c1_amended_protected_is_exempt ⟨1, [], some ⟨PyApp.loginUser, 1⟩, 2⟩
      ⟨PyApp.loginUser, 1⟩ "/status" "/protected" 0 7 PyApp.loginUser
      (by decide) (by decide)).2.2⟩

/-- Claim C6 (counterexample): a token whose signature does not verify
(signed under 99 while the current secret is 0), presented to the guarded
`/status` route, is surfaced with status 401 — not the 403 the unified
taxonomy claims — with the (incongruous) message `"Forbidden: Invalid
token"`. -/
theorem c6_counterexample_invalid_signature_gets_401 :
    (PyApp.authenticate_token ⟨PyApp.loginUser, 99⟩ "/status" PyApp.initAppState 0).1
      = AuthResult.errorResp 401 PyApp.INVALID_TOKEN_MSG
    ∧ (PyApp.authenticate_token ⟨PyApp.loginUser, 99⟩ "/status" PyApp.initAppState 0).1
      ≠ AuthResult.errorResp 403 PyApp.INVALID_TOKEN_MSG := by
  refine ⟨rfl, ?_⟩
  decide

/-- Claim C6 (amended): in both guard implementations an invalid-signature
failure is surfaced with HTTP status 401 — py_app pairs it with the message
`ERROR_MESSAGES["INVALID_TOKEN"] = "Forbidden: Invalid token"`, the root app
with `"Unauthorized: Invalid token"`; only the replay check (`AlreadyUsed`)
answers 403. -/
theorem c6_amended_invalid_signature_is_401
    (st : PyApp.AppState) (t : PyApp.Token) (p : String) (now : Nat)
    (hmem : t ∉ st.tokenBlacklist) (hsig : t.key ≠ st.currentSecretKey)
    (t2 : RootApp.Token) (now2 : Nat) (hsig2 : t2.key ≠ RootApp.JWT_SECRET_KEY) :
    (PyApp.authenticate_token t p st now).1
      = AuthResult.errorResp 401 PyApp.INVALID_TOKEN_MSG
    ∧ RootApp.authenticate_token t2 now2
      = AuthResult.errorResp 401 "Unauthorized: Invalid token" := by
  constructor
  · simp [PyApp.authenticate_token, Jwt.decode, hmem, hsig]
  · simp [RootApp.authenticate_token, Jwt.decode, hsig2]

/-- Concrete instance of `c6_amended_invalid_signature_is_401`. -/
theorem c6_amended_witness :
    (PyApp.authenticate_token ⟨PyApp.loginUser, 99⟩ "/protected" PyApp.initAppState 0).1
      = AuthResult.errorResp 401 PyApp.INVALID_TOKEN_MSG
    ∧ RootApp.authenticate_token ⟨PyApp.loginUser, "wrong"⟩ 0
      = AuthResult.errorResp 401 "Unauthorized: Invalid token" :=
  c6_amended_invalid_signature_is_401 PyApp.initAppState ⟨PyApp.loginUser, 99⟩
    "/protected" 0 (by decide) (by decide) ⟨PyApp.loginUser, "wrong"⟩ 0 (by decide)

/-- Claim C9 (confirmed): for every payload, key type and secret, decoding
an encoded token against the same secret with expiry verification enabled
returns exactly the payload, provided the decode happens strictly before the
payload's expiry (vacuously so when no `exp` claim is present, as for all
tokens this application issues). -/
theorem c9_decode_encode_roundtrip
    {K : Type} [DecidableEq K] (p : Jwt.Payload) (s : K) (now : Nat)
    (hexp : ∀ e, p.exp = some e → now < e) :
    Jwt.decode (Jwt.encode p s) s true now = Except.ok p := by
  rcases hpe : p.exp with _ | e
  · simp [Jwt.decode, Jwt.encode, hpe]
  · have h1 : ¬ e ≤ now := Nat.not_le.mpr (hexp e hpe)
    simp [Jwt.decode, Jwt.encode, hpe, h1]

/-- Concrete instance of `c9_decode_encode_roundtrip`: decoding at time 3 a
token with `exp = 10` signed under secret 7. -/
theorem c9_witness :
    Jwt.decode (Jwt.encode ⟨1, "exampleuser", some 10⟩ 7) 7 true 3
      = Except.ok ⟨1, "exampleuser", some 10⟩ :=
  c9_decode_encode_roundtrip ⟨1, "exampleuser", some 10⟩ 7 3
    (fun e he => by simp at he; omega)

/-- Claim C4 (confirmed): a refresh presenting an expired but correctly
signed token for `{id: 1, username: "exampleuser"}` succeeds — expiry is
ignored by the `verify_exp: False` decode even though the same token fails
strict decoding with `Expired` — and the new token carries the same
identity, is signed under the freshly rotated secret (different from the
original key), verifies under the new current secret, while the original
token no longer verifies under it. -/
theorem c4_refresh_accepts_expired_and_rotates
    (st : PyApp.AppState) (t : PyApp.Token) (e now : Nat)
    (hpay : t.payload = { userId := 1, username := "exampleuser", exp := some e })
    (hexp : e ≤ now)
    (hsig : t.key = st.currentSecretKey)
    (hfresh : st.currentSecretKey < st.secretCtr) :
    Jwt.decode t st.currentSecretKey true now = Except.error Jwt.Error.ExpiredSignature
    ∧ (PyApp.refresh (some t) st now).1
      = PyApp.RefreshResult.token
          (Jwt.encode { userId := 1, username := "exampleuser", exp := none } st.secretCtr)
    ∧ (PyApp.refresh (some t) st now).2.currentSecretKey = st.secretCtr
    ∧ st.secretCtr ≠ t.key
    ∧ Jwt.decode
        (Jwt.encode { userId := 1, username := "exampleuser", exp := none } st.secretCtr)
        (PyApp.refresh (some t) st now).2.currentSecretKey true now
      = Except.ok { userId := 1, username := "exampleuser", exp := none }
    ∧ Jwt.decode t (PyApp.refresh (some t) st now).2.currentSecretKey false now
      = Except.error Jwt.Error.InvalidToken := by
  have hr : PyApp.refresh (some t) st now
      = (PyApp.RefreshResult.token
          (Jwt.encode { userId := 1, username := "exampleuser", exp := none } st.secretCtr),
         { st with
             currentSecretKey := st.secretCtr,
             currentToken := some (Jwt.encode
               { userId := 1, username := "exampleuser", exp := none } st.secretCtr),
             secretCtr := st.secretCtr + 1 }) := by
    have hd : Jwt.decode t st.currentSecretKey false now = Except.ok t.payload := by
      simp [Jwt.decode, hsig]
    simp only [PyApp.refresh, hd, hpay]
    simp [PyApp.generate_token, PyApp.generate_secret_key, Jwt.encode]
  have hknew : t.key ≠ st.secretCtr := by omega
  refine ⟨?_, ?_, ?_, ?_, ?_, ?_⟩
  · simp [Jwt.decode, hsig, hpay, hexp]
  · rw [hr]
  · rw [hr]
  · omega
  · rw [hr]
    simp [Jwt.decode, Jwt.encode]
  · rw [hr]
    simp [Jwt.decode, hknew]

/-- Concrete instance of `c4_refresh_accepts_expired_and_rotates`: the token
for `{id: 1, username: "exampleuser"}` with `exp = 3`, signed under the
initial secret 0, refreshed at time 10. -/
theorem c4_witness :
    Jwt.decode (⟨⟨1, "exampleuser", some 3⟩, 0⟩ : PyApp.Token)
        PyApp.initAppState.currentSecretKey true 10
      = Except.error Jwt.Error.ExpiredSignature
    ∧ (PyApp.refresh (some ⟨⟨1, "exampleuser", some 3⟩, 0⟩) PyApp.initAppState 10).1
      = PyApp.RefreshResult.token
          (Jwt.encode { userId := 1, username := "exampleuser", exp := none }
            PyApp.initAppState.secretCtr)
    ∧ (PyApp.refresh (some ⟨⟨1, "exampleuser", some 3⟩, 0⟩) PyApp.initAppState
        10).2.currentSecretKey = PyApp.initAppState.secretCtr
    ∧ PyApp.initAppState.secretCtr ≠ (⟨⟨1, "exampleuser", some 3⟩, 0⟩ : PyApp.Token).key
    ∧ Jwt.decode
        (Jwt.encode { userId := 1, username := "exampleuser", exp := none }
          PyApp.initAppState.secretCtr)
        (PyApp.refresh (some ⟨⟨1, "exampleuser", some 3⟩, 0⟩) PyApp.initAppState
          10).2.currentSecretKey true 10
      = Except.ok { userId := 1, username := "exampleuser", exp := none }
    ∧ Jwt.decode (⟨⟨1, "exampleuser", some 3⟩, 0⟩ : PyApp.Token)
        (PyApp.refresh (some ⟨⟨1, "exampleuser", some 3⟩, 0⟩) PyApp.initAppState
          10).2.currentSecretKey false 10
      = Except.error Jwt.Error.InvalidToken :=
  c4_refresh_accepts_expired_and_rotates PyApp.initAppState
    ⟨⟨1, "exampleuser", some 3⟩, 0⟩ 3 10 rfl (by decide) rfl (by decide)

/-- Claim C8 (confirmed): when the cache cannot be served (no entry yet, or
the entry is older than the TTL) and either external operation fails, both
implementations of `load_configuration` raise with the cache left completely
unchanged; moreover, for all inputs, the cache is either untouched or
metadata, sha and timestamp are replaced together in one atomic update. -/
theorem c8_failed_reload_leaves_cache_untouched
    (cache : ConfigCache) (now : Nat)
    (fr : Except Unit Metadata) (gs : Except Unit String)
    (hmiss : cache.metadata = none ∨ CACHE_DURATION_MS ≤ now - cache.lastUpdated)
    (hfail : fr = Except.error () ∨ gs = Except.error ()) :
    PyApp.load_configuration cache now fr gs = (Except.error (), cache)
    ∧ RootApp.load_configuration cache now fr gs = (Except.error (), cache)
    ∧ (∀ (c2 : ConfigCache) (n2 : Nat) (fr2 : Except Unit Metadata)
          (gs2 : Except Unit String),
        (PyApp.load_configuration c2 n2 fr2 gs2).2 = c2
        ∨ ∃ m s, fr2 = Except.ok m ∧ gs2 = Except.ok s
            ∧ (PyApp.load_configuration c2 n2 fr2 gs2).2
              = { metadata := some m, sha := some s, lastUpdated := n2 })
    ∧ (∀ (c2 : ConfigCache) (n2 : Nat) (fr2 : Except Unit Metadata)
          (gs2 : Except Unit String),
        (RootApp.load_configuration c2 n2 fr2 gs2).2 = c2
        ∨ ∃ m s, fr2 = Except.ok m ∧ gs2 = Except.ok s
            ∧ (RootApp.load_configuration c2 n2 fr2 gs2).2
              = { metadata := some m, sha := some s, lastUpdated := n2 }) := by
  have hcond : ¬ (cache.metadata.isSome ∧ now - cache.lastUpdated < CACHE_DURATION_MS) := by
    rcases hmiss with hmn | httl
    · intro hc
      rw [hmn] at hc
      simp at hc
    · intro hc
      omega
  refine ⟨?_, ?_, ?_, ?_⟩
  · unfold PyApp.load_configuration
    rw [if_neg hcond]
    rcases fr with u | m
    · rcases gs with u2 | s <;> rfl
    · rcases gs with u2 | s
      · rfl
      · rcases hfail with hcon | hcon <;> exact Except.noConfusion hcon
  · unfold RootApp.load_configuration
    rw [if_neg hcond]
    rcases fr with u | m
    · rcases gs with u2 | s <;> rfl
    · rcases gs with u2 | s
      · rfl
      · rcases hfail with hcon | hcon <;> exact Except.noConfusion hcon
  · intro c2 n2 fr2 gs2
    unfold PyApp.load_configuration
    split
    · exact Or.inl rfl
    · rcases fr2 with u | m
      · rcases gs2 with u2 | s <;> exact Or.inl rfl
      · rcases gs2 with u2 | s
        · exact Or.inl rfl
        · exact Or.inr ⟨m, s, rfl, rfl, rfl⟩
  · intro c2 n2 fr2 gs2
    unfold RootApp.load_configuration
    split
    · exact Or.inl rfl
    · rcases fr2 with u | m
      · rcases gs2 with u2 | s <;> exact Or.inl rfl
      · rcases gs2 with u2 | s
        · exact Or.inl rfl
        · exact Or.inr ⟨m, s, rfl, rfl, rfl⟩

/-- Concrete instance of `c8_failed_reload_leaves_cache_untouched`: an empty
cache, both the metadata read and the SHA lookup failing. -/
theorem c8_witness :
    PyApp.load_configuration ⟨none, none, 0⟩ 0 (Except.error ()) (Except.error ())
      = (Except.error (), ⟨none, none, 0⟩)
    ∧ RootApp.load_configuration ⟨none, none, 0⟩ 0 (Except.error ()) (Except.error ())
      = (Except.error (), ⟨none, none, 0⟩) :=
  ⟨(c8_failed_reload_leaves_cache_untouched ⟨none, none, 0⟩ 0 (Except.error ())
      (Except.error ()) (Or.inl rfl) (Or.inl rfl)).1,
   (c8_failed_reload_leaves_cache_untouched ⟨none, none, 0⟩ 0 (Except.error ())
      (Except.error ()) (Or.inl rfl) (Or.inl rfl)).2.1⟩

/-- Splitting a list that does not contain the separator yields exactly one
field: the list itself. -/
theorem pySplit_no_sep (sep : Char) (l : List Char) (h : sep ∉ l) :
    PyApp.pySplit sep l = [l] := by
  induction l with
  | nil => rfl
  | cons c cs ih =>
    have hc : ¬ c = sep := fun hcc => h (by rw [← hcc]; exact List.mem_cons_self c cs)
    have hcs : sep ∉ cs := fun hm => h (List.mem_cons_of_mem c hm)
    simp only [PyApp.pySplit]
    rw [if_neg hc, ih hcs]

/-- Claim C10 (counterexample): the header `"Bearer "` — present, non-empty,
with nothing after the space — extracts the empty token, which is falsy, so
the guard takes the documented missing-token (401) path even though the
header is neither absent nor empty.  The claim's "only when the header is
entirely absent or empty" is therefore false. -/
theorem c10_counterexample_bearer_trailing_space :
    PyApp.auth_front (some ['B', 'e', 'a', 'r', 'e', 'r', ' '])
      = PyApp.FrontOutcome.missingToken
    ∧ (['B', 'e', 'a', 'r', 'e', 'r', ' '] : List Char) ≠ [] := by
  exact ⟨rfl, by decide⟩

/-- Claim C10 (amended): an Authorization header that is present, non-empty
and contains no space makes token extraction raise an unhandled
`IndexError`; and the missing-token (401) path is reached exactly when the
header is absent, empty, or splitting it on spaces yields an empty second
field (e.g. `"Bearer "` with nothing after the space). -/
theorem c10_amended_extraction_behaviour
    (h : List Char) (hne : h ≠ []) (hns : ' ' ∉ h) :
    PyApp.extract_auth_token (some h) = Except.error ()
    ∧ ∀ oh : Option (List Char),
        (PyApp.auth_front oh = PyApp.FrontOutcome.missingToken ↔
          oh = none ∨ oh = some []
            ∨ ∃ g, oh = some g ∧ g ≠ [] ∧ (PyApp.pySplit ' ' g).get? 1 = some []) := by
  constructor
  · simp only [PyApp.extract_auth_token, if_neg hne, pySplit_no_sep ' ' h hns]
    rfl
  · intro oh
    match oh with
    | none => simp [PyApp.auth_front, PyApp.extract_auth_token]
    | some g =>
      by_cases hg : g = []
      · subst hg
        simp [PyApp.auth_front, PyApp.extract_auth_token]
      · rcases hsp : (PyApp.pySplit ' ' g).get? 1 with _ | t
        · have hfront : PyApp.auth_front (some g) = PyApp.FrontOutcome.indexError := by
            simp only [PyApp.auth_front, PyApp.extract_auth_token, if_neg hg, hsp]
          rw [hfront]
          constructor
          · intro hcon
            exact absurd hcon (by simp)
          · rintro (hcon | hcon | ⟨g2, hg2, hg2ne, hsp2⟩)
            · exact absurd hcon (by simp)
            · exact absurd hcon (by simp [hg])
            · injection hg2 with hgg
              subst hgg
              rw [hsp] at hsp2
              exact absurd hsp2 (by simp)
        · by_cases ht : t = []
          · subst ht
            have hfront : PyApp.auth_front (some g) = PyApp.FrontOutcome.missingToken := by
              simp only [PyApp.auth_front, PyApp.extract_auth_token, if_neg hg, hsp]
              rfl
            rw [hfront]
            constructor
            · intro _
              exact Or.inr (Or.inr ⟨g, rfl, hg, hsp⟩)
            · intro _
              rfl
          · have hfront : PyApp.auth_front (some g) = PyApp.FrontOutcome.hasToken t := by
              simp only [PyApp.auth_front, PyApp.extract_auth_token, if_neg hg, hsp,
                if_neg ht]
            rw [hfront]
            constructor
            · intro hcon
              exact absurd hcon (by simp)
            · rintro (hcon | hcon | ⟨g2, hg2, hg2ne, hsp2⟩)
              · exact absurd hcon (by simp)
              · exact absurd hcon (by simp [hg])
              · injection hg2 with hgg
                subst hgg
                rw [hsp] at hsp2
                injection hsp2 with htt
                exact absurd htt ht

/-- Concrete instance of `c10_amended_extraction_behaviour`: the bare token
header `"x"` (no "Bearer " scheme, no space) raises `IndexError`. -/
theorem c10_amended_witness :
    PyApp.extract_auth_token (some ['x']) = Except.error () :=
  (c10_amended_extraction_behaviour ['x'] (by decide) (by decide)).1
